import Mathlib

/-!
Verification of `ml/export_logs.py`: a shallow embedding of the script's
SQL-text assembly, environment-file search, per-table export loop and its
effects, together with a small model of the filter's row semantics and of
the filesystem operations the script performs.
-/

namespace ExportLogs

/-- Seconds in one day: `timedelta(days = d)` in the script is exactly `d`
days of 86400 seconds, since naive `datetime` arithmetic has no leap
seconds. Timestamps are modelled as seconds (an `Int`). -/
def secondsPerDay : Int := 86400

/-- The cutoff the script computes on line 91:
`datetime.utcnow() - timedelta(days=args.since_days)`. -/
def cutoffTime (now d : Int) : Int := now - d * secondsPerDay

/-- Zero-pad a number to two digits, as `strftime` does for the fields
month, day, hour, minute, second. -/
def pad2 (n : Nat) : String := if n < 10 then "0" ++ toString n else toString n

/-- Zero-pad a number to four digits, as `strftime` does for the year. -/
def pad4 (n : Nat) : String :=
  if n < 10 then "000" ++ toString n
  else if n < 100 then "00" ++ toString n
  else if n < 1000 then "0" ++ toString n
  else toString n

/-- Gregorian civil date (year, month, day) from days since 1970-01-01,
by the standard era decomposition of the proleptic Gregorian calendar. -/
def civilFromDays (z0 : Int) : Int × Nat × Nat :=
  let z := z0 + 719468
  let era := Int.fdiv z 146097
  let doe := (z - era * 146097).toNat
  let yoe := (doe - doe / 1460 + doe / 36524 - doe / 146096) / 365
  let y : Int := (yoe : Int) + era * 400
  let doy := doe - (365 * yoe + yoe / 4 - yoe / 100)
  let mp := (5 * doy + 2) / 153
  let d := doy - (153 * mp + 2) / 5 + 1
  let m := if mp < 10 then mp + 3 else mp - 9
  (if m ≤ 2 then y + 1 else y, m, d)

/-- Line 92 of the script: `cutoff.strftime("%Y-%m-%d %H:%M:%S")` applied
to a timestamp counted in seconds since 1970-01-01 00:00:00 UTC. -/
def fmtTimestamp (t : Int) : String :=
  let days := Int.fdiv t 86400
  let secs := (t - days * 86400).toNat
  let c := civilFromDays days
  pad4 c.1.toNat ++ "-" ++ pad2 c.2.1 ++ "-" ++ pad2 c.2.2 ++ " " ++
    pad2 (secs / 3600) ++ ":" ++ pad2 (secs % 3600 / 60) ++ ":" ++ pad2 (secs % 60)

/-- Lines 89-93 of the script: the `time_filter` string, empty when
`--since-days` is absent, otherwise the WHERE clause with the formatted
cutoff spliced in as a literal. -/
def timeFilter (now : Int) (sinceDays : Option Int) : String :=
  match sinceDays with
  | none => ""
  | some d => " WHERE created_at >= '" ++ fmtTimestamp (cutoffTime now d) ++ "' "

/-- Line 96: the users query, a fixed literal. -/
def usersSql : String := "SELECT id, email, role, created_at FROM users"

/-- Line 97: the user_profiles query, a fixed literal. -/
def userProfilesSql : String := "SELECT id, user_id, role, skill_level, career_path FROM user_profiles"

/-- Line 99: the search_logs base query. -/
def searchLogsBase : String := "SELECT id, user_id, query, created_at FROM search_logs"

/-- Line 100: the click_logs base query. -/
def clickLogsBase : String := "SELECT id, user_id, course_id, event, created_at FROM click_logs"

/-- Line 101: the completed_courses base query. -/
def completedBase : String := "SELECT id, user_id, course_id, completed_at FROM completed_courses"

/-- Line 102: the in_progress base query. -/
def inProgressBase : String := "SELECT id, user_id, course_id, started_at, last_seen_at FROM in_progress"

/-- Line 99: `search_sql`, the base plus the filter when since-days is set. -/
def searchSql (now : Int) (sd : Option Int) : String :=
  searchLogsBase ++ (if sd.isSome then timeFilter now sd else "")

/-- Line 100: `click_sql`. -/
def clickSql (now : Int) (sd : Option Int) : String :=
  clickLogsBase ++ (if sd.isSome then timeFilter now sd else "")

/-- Line 101: `completed_sql`. -/
def completedSql (now : Int) (sd : Option Int) : String :=
  completedBase ++ (if sd.isSome then timeFilter now sd else "")

/-- Line 102: `inprogress_sql`. -/
def inProgressSql (now : Int) (sd : Option Int) : String :=
  inProgressBase ++ (if sd.isSome then timeFilter now sd else "")

/-- The six base names, in the order main exports them (lines 96-107). -/
def tableNames : List String :=
  ["users", "user_profiles", "search_logs", "click_logs", "completed_courses", "in_progress"]

/-- The six (sql, base_name) pairs in the order main passes them to
`export_table` (lines 96-107). -/
def exportPlan (now : Int) (sd : Option Int) : List (String × String) :=
  [(usersSql, "users"), (userProfilesSql, "user_profiles"),
   (searchSql now sd, "search_logs"), (clickSql now sd, "click_logs"),
   (completedSql now sd, "completed_courses"), (inProgressSql now sd, "in_progress")]

/-- The observable actions of one run of the script, in the order they
happen: creating the output directory (line 83), loading an environment
file (line 39), executing a query (line 59), writing the file
`dir/base.ext` (lines 63 and 68), and the warning printed when the parquet
write fails (line 71). -/
inductive Effect where
  | mkdirOut (dir : String)
  | loadEnv (path : String)
  | runQuery (sql : String)
  | writeFile (dir base ext : String)
  | warnParquet (base : String)
  deriving DecidableEq

/-- The environment one run meets: which paths exist on disk, whether
`pd.read_sql` on a given SQL text succeeds or raises (with which message),
and whether `df.to_parquet` succeeds for a given table. -/
structure World where
  envExists : String → Bool
  queryOutcome : String → Except String Unit
  parquetOk : String → Bool

/-- The command-line configuration after parsing (lines 76-84). `argparse`
restricts every member of `formats` to the lowercase choices "csv" and
"parquet", so the `f.lower()` on line 84 is the identity on them. -/
structure Config where
  outDir : String
  formats : List String
  sinceDays : Option Int

/-- Lines 56-73, `export_table`: run the query; on success write the CSV
when requested, then attempt the parquet write inside try/except, printing
a warning instead of a file when it raises. Returns the effects and the
propagated exception, if any: only the parquet step is guarded. -/
def exportTableRun (w : World) (outDir : String) (formats : List String)
    (p : String × String) : List Effect × Option String :=
  match w.queryOutcome p.1 with
  | .error e => ([Effect.runQuery p.1], some e)
  | .ok _ =>
    let csvE := if formats.contains "csv" then [Effect.writeFile outDir p.2 "csv"] else []
    let pqE := if formats.contains "parquet" then
        (if w.parquetOk p.2 then [Effect.writeFile outDir p.2 "parquet"]
         else [Effect.warnParquet p.2])
      else []
    (Effect.runQuery p.1 :: (csvE ++ pqE), none)

/-- The six `export_table` calls of main run in order (lines 96-107); an
uncaught exception from one stops the run before the later ones. -/
def runSeq (w : World) (outDir : String) (formats : List String) :
    List (String × String) → List Effect × Option String
  | [] => ([], none)
  | p :: rest =>
    match (exportTableRun w outDir formats p).2 with
    | some e => ((exportTableRun w outDir formats p).1, some e)
    | none =>
      ((exportTableRun w outDir formats p).1 ++ (runSeq w outDir formats rest).1,
       (runSeq w outDir formats rest).2)

/-- Lines 30-34: `ENV_PATHS`, the three candidate environment files in
probe order. -/
def ENV_PATHS : List String := ["backend/.env", ".env", "../backend/.env"]

/-- The loop body of `find_and_load_env` over a remaining candidate list:
the result and the list of paths passed to `load_dotenv`. -/
def findLoadAux (ex : String → Bool) : List String → Option String × List String
  | [] => (none, [])
  | p :: ps => if ex p then (some p, [p]) else findLoadAux ex ps

/-- Lines 36-41, `find_and_load_env`: probe `ENV_PATHS` in order, load the
first existing candidate and return it, or `none` when none exists. -/
def findAndLoadEnv (ex : String → Bool) : Option String × List String :=
  findLoadAux ex ENV_PATHS

/-- Line 46: the message of the RuntimeError raised when no candidate
environment file exists. -/
def envErrorMsg : String :=
  "Could not find backend/.env. Place .env in backend/.env or project root."

/-- Lines 75-109, `main` after argument parsing: create the output
directory, locate the environment file (raising when absent), build the
six queries with the optional time filter, and export them in order. The
result is the effect trace and, when an exception escaped, its message. -/
def mainRun (w : World) (cfg : Config) (now : Int) : List Effect × Option String :=
  match (findAndLoadEnv w.envExists).1 with
  | none => ([Effect.mkdirOut cfg.outDir], some envErrorMsg)
  | some p =>
    ([Effect.mkdirOut cfg.outDir] ++ Effect.loadEnv p ::
       (runSeq w cfg.outDir cfg.formats (exportPlan now cfg.sinceDays)).1,
     (runSeq w cfg.outDir cfg.formats (exportPlan now cfg.sinceDays)).2)

/-- The (base, ext) pairs of files a trace writes, in order. -/
def filesOf (tr : List Effect) : List (String × String × String) :=
  tr.filterMap (fun e => match e with
    | Effect.writeFile d b x => some (d, b, x)
    | _ => none)

/-- The number of queries a trace executes. -/
def countQueries (tr : List Effect) : Nat :=
  tr.countP (fun e => match e with
    | Effect.runQuery _ => true
    | _ => false)

/-- A database row: the timestamp-valued columns it holds, by column name
(`none` for a column the row does not have). -/
def Row := String → Option Int

/-- The predicate of the appended clause `WHERE created_at >= cutoff` as
the database evaluates it on one row: it reads the column named
`created_at` and nothing else. -/
def sinceFilterHolds (c : Int) (r : Row) : Bool :=
  match r "created_at" with
  | some t => decide (c ≤ t)
  | none => false

/-- The rows the appended WHERE clause keeps. -/
def applySinceFilter (c : Int) (rows : List Row) : List Row :=
  rows.filter (sinceFilterHolds c)

/-- The SELECT projection: keep the listed columns, drop the rest. -/
def projectRow (cols : List String) (r : Row) : Row :=
  fun s => if cols.contains s then r s else none

/-- One of the four filtered queries: filter the table by the appended
clause when a cutoff is present, then project onto the selected columns. -/
def runTableQuery (cols : List String) (filt : Option Int) (rows : List Row) : List Row :=
  (match filt with
   | none => rows
   | some c => applySinceFilter c rows).map (projectRow cols)

/-- The columns the search_logs query selects (line 99). -/
def searchCols : List String := ["id", "user_id", "query", "created_at"]

/-- The columns the click_logs query selects (line 100). -/
def clickCols : List String := ["id", "user_id", "course_id", "event", "created_at"]

/-- The columns the completed_courses query selects (line 101). -/
def completedCols : List String := ["id", "user_id", "course_id", "completed_at"]

/-- The columns the in_progress query selects (line 102). -/
def inProgressCols : List String := ["id", "user_id", "course_id", "started_at", "last_seen_at"]

/-- A concrete completed_courses row: its `created_at` is recent (100) but
its `completed_at` is old (0). -/
def cexRow : Row := fun s =>
  if s = "created_at" then some 100
  else if s = "completed_at" then some 0
  else none

/-- A filesystem path, as its components. -/
abbrev DirPath := List String

/-- The nonempty prefixes of a path: all its ancestors and the path itself. -/
def nePrefixes : DirPath → List DirPath
  | [] => []
  | c :: rest => [c] :: (nePrefixes rest).map (fun q => c :: q)

/-- A filesystem: the directories that exist and the regular files with
their contents. -/
structure FS where
  dirs : List DirPath
  files : List (DirPath × String)

/-- Line 83, `out_dir.mkdir(parents=True, exist_ok=True)`: raises only when
the path or one of its ancestors exists as a regular file; otherwise it
creates every missing ancestor and the directory itself, and succeeds
without change when the directory already exists. -/
def mkdirParentsExistOk (fs : FS) (p : DirPath) : Except String FS :=
  if (nePrefixes p).any (fun q => (fs.files.map Prod.fst).contains q) then
    Except.error "FileExistsError"
  else
    Except.ok { fs with
      dirs := fs.dirs ++ (nePrefixes p).filter (fun q => !(fs.dirs.contains q)) }

/-- `df.to_csv(path)` and `df.to_parquet(path)` open the target for
writing: an existing file of the same name is truncated and replaced, and
nothing is raised for it; the newest content wins. -/
def writeFileFS (fs : FS) (p : DirPath) (content : String) : FS :=
  { fs with files := (p, content) :: fs.files.filter (fun q => !(q.1 == p)) }

/-- The content of the file at `p`. -/
def lookupFile (fs : FS) (p : DirPath) : Option String :=
  (fs.files.find? (fun q => q.1 == p)).map Prod.snd

/-- A run in which every environment candidate exists, every query
succeeds and every parquet write succeeds. -/
def allOkWorld : World where
  envExists := fun _ => true
  queryOutcome := fun _ => Except.ok ()
  parquetOk := fun _ => true

/-- A run in which no environment candidate exists. -/
def noEnvWorld : World where
  envExists := fun _ => false
  queryOutcome := fun _ => Except.ok ()
  parquetOk := fun _ => true

/-- A run in which every parquet write raises (pyarrow absent). -/
def noPqWorld : World where
  envExists := fun _ => true
  queryOutcome := fun _ => Except.ok ()
  parquetOk := fun _ => false

/-- The default command line: `--out-dir ml/data --formats csv parquet`,
no `--since-days`. -/
def defaultCfg : Config where
  outDir := "ml/data"
  formats := ["csv", "parquet"]
  sinceDays := none

/-- The files a fully successful run writes: for each of the six tables in
order, one CSV when "csv" is requested and one parquet when "parquet" is. -/
def expectedFiles (od : String) (fmts : List String) : List (String × String × String) :=
  tableNames.flatMap (fun bn =>
    (if fmts.contains "csv" then [(od, bn, "csv")] else []) ++
    (if fmts.contains "parquet" then [(od, bn, "parquet")] else []))

/-!  Theorems.  -/

/-- Sanity check of the date conversion at the epoch. -/
theorem fmtTimestamp_epoch : fmtTimestamp 0 = "1970-01-01 00:00:00" := by decide

/-- Sanity check at 2026-10-13 00:00:01 UTC (1791849601 seconds). -/
theorem fmtTimestamp_recent : fmtTimestamp 1791849601 = "2026-10-13 00:00:01" := by decide

/-- Claim C1: with since-days D, each of the four log/event queries is its
base SELECT with the clause WHERE created_at >= quoted-cutoff appended,
the cutoff being now minus D days formatted as a timestamp literal; the
users and user_profiles entries of the plan are the same with or without
since-days. -/
theorem C1_sql_text (now d : Int) :
    searchSql now (some d) =
      searchLogsBase ++ (" WHERE created_at >= '" ++ fmtTimestamp (now - d * secondsPerDay) ++ "' ") ∧
    clickSql now (some d) =
      clickLogsBase ++ (" WHERE created_at >= '" ++ fmtTimestamp (now - d * secondsPerDay) ++ "' ") ∧
    completedSql now (some d) =
      completedBase ++ (" WHERE created_at >= '" ++ fmtTimestamp (now - d * secondsPerDay) ++ "' ") ∧
    inProgressSql now (some d) =
      inProgressBase ++ (" WHERE created_at >= '" ++ fmtTimestamp (now - d * secondsPerDay) ++ "' ") ∧
    (exportPlan now (some d)).take 2 = (exportPlan now none).take 2 :=
  ⟨rfl, rfl, rfl, rfl, rfl⟩

/-- Claim C10: the filter is built whenever since-days is present, for any
integer value: with 0 the cutoff equals now, with a negative value the
cutoff lies in the future, and only the absent flag leaves the queries
unfiltered. -/
theorem C10_filter_for_every_value (now d : Int) :
    timeFilter now (some d) =
      " WHERE created_at >= '" ++ fmtTimestamp (cutoffTime now d) ++ "' " ∧
    cutoffTime now 0 = now ∧
    (d < 0 → now < cutoffTime now d) ∧
    timeFilter now none = "" ∧
    searchSql now none = searchLogsBase ∧
    clickSql now none = clickLogsBase ∧
    completedSql now none = completedBase ∧
    inProgressSql now none = inProgressBase := by
  refine ⟨rfl, by simp [cutoffTime], ?_, rfl, ?_, ?_, ?_, ?_⟩
  · intro hd
    have hneg : d * secondsPerDay < 0 := by
      have : (0 : Int) < secondsPerDay := by decide
      exact mul_neg_of_neg_of_pos hd this
    simp only [cutoffTime]
    omega
  all_goals simp [searchSql, clickSql, completedSql, inProgressSql]

/-- Claim C6: the three candidates are probed in the fixed order
backend/.env, ./.env, ../backend/.env; the first existing one is loaded
and returned, and later candidates are never loaded once an earlier one
exists. -/
theorem C6_env_probe_order (ex : String → Bool) :
    (ex "backend/.env" = true →
      findAndLoadEnv ex = (some "backend/.env", ["backend/.env"])) ∧
    (ex "backend/.env" = false → ex ".env" = true →
      findAndLoadEnv ex = (some ".env", [".env"])) ∧
    (ex "backend/.env" = false → ex ".env" = false → ex "../backend/.env" = true →
      findAndLoadEnv ex = (some "../backend/.env", ["../backend/.env"])) ∧
    (ex "backend/.env" = false → ex ".env" = false → ex "../backend/.env" = false →
      findAndLoadEnv ex = (none, [])) := by
  refine ⟨fun h1 => ?_, fun h1 h2 => ?_, fun h1 h2 h3 => ?_, fun h1 h2 h3 => ?_⟩ <;>
    simp [findAndLoadEnv, findLoadAux, ENV_PATHS, h1]
  all_goals simp [h2]
  all_goals simp [h3]

/-- Claim C9: the very first effect of every run is creating the output
directory, before the environment file is looked up; on the missing-.env
fatal path the trace still holds that creation, so the failure is not
state-preserving. -/
theorem C9_mkdir_before_env (w : World) (cfg : Config) (now : Int) :
    (mainRun w cfg now).1.head? = some (Effect.mkdirOut cfg.outDir) ∧
    ((findAndLoadEnv w.envExists).1 = none →
      (mainRun w cfg now).1 = [Effect.mkdirOut cfg.outDir] ∧
      (mainRun w cfg now).2 = some envErrorMsg) := by
  constructor
  · cases hf : (findAndLoadEnv w.envExists).1 <;> simp [mainRun, hf]
  · intro hf
    simp [mainRun, hf]

/-- Claim C4: when none of the three candidate paths exists, the run fails
with the RuntimeError of `make_engine_from_env` before any of the six
queries is executed and before any output file is written. -/
theorem C4_missing_env_fatal (w : World) (cfg : Config) (now : Int)
    (h : ∀ q ∈ ENV_PATHS, w.envExists q = false) :
    (mainRun w cfg now).2 = some envErrorMsg ∧
    (∀ s, Effect.runQuery s ∉ (mainRun w cfg now).1) ∧
    (∀ d b x, Effect.writeFile d b x ∉ (mainRun w cfg now).1) := by
  have h1 := h "backend/.env" (by simp [ENV_PATHS])
  have h2 := h ".env" (by simp [ENV_PATHS])
  have h3 := h "../backend/.env" (by simp [ENV_PATHS])
  have hf : (findAndLoadEnv w.envExists).1 = none := by
    simp [findAndLoadEnv, findLoadAux, ENV_PATHS, h1, h2, h3]
  refine ⟨?_, ?_, ?_⟩ <;> simp [mainRun, hf]

/-- The missing-.env failure demonstrated on a concrete world. -/
theorem C4_missing_env_fatal_witness :
    (mainRun noEnvWorld defaultCfg 0).2 = some envErrorMsg :=
  (C4_missing_env_fatal noEnvWorld defaultCfg 0 (fun _ _ => rfl)).1

/-- A failing query stops the loop at once: its trace is the one query
effect and the exception is the query's own. -/
theorem runSeq_cons_err (w : World) (od : String) (fmts : List String)
    (p : String × String) (rest : List (String × String)) (e : String)
    (hq : w.queryOutcome p.1 = Except.error e) :
    runSeq w od fmts (p :: rest) = ([Effect.runQuery p.1], some e) := by
  simp [runSeq, exportTableRun, hq]

/-- A successful head export prepends its trace and continues. -/
theorem runSeq_cons_ok (w : World) (od : String) (fmts : List String)
    (p : String × String) (rest : List (String × String))
    (hq : w.queryOutcome p.1 = Except.ok ()) :
    runSeq w od fmts (p :: rest) =
      ((exportTableRun w od fmts p).1 ++ (runSeq w od fmts rest).1,
       (runSeq w od fmts rest).2) := by
  have h2 : (exportTableRun w od fmts p).2 = none := by simp [exportTableRun, hq]
  simp [runSeq, h2]

/-- When every query succeeds the loop visits every table in order. -/
theorem runSeq_all_ok (w : World) (od : String) (fmts : List String)
    (hq : ∀ s, w.queryOutcome s = Except.ok ())
    (l : List (String × String)) :
    runSeq w od fmts l =
      (l.flatMap (fun p => (exportTableRun w od fmts p).1), none) := by
  induction l with
  | nil => simp [runSeq]
  | cons p rest ih => simp [runSeq_cons_ok w od fmts p rest (hq p.1), ih]

/-- The four possible effects of one successful table export. -/
theorem mem_exportTableRun (w : World) (od : String) (fmts : List String)
    (p : String × String) (e : Effect) (hq : w.queryOutcome p.1 = Except.ok ()) :
    e ∈ (exportTableRun w od fmts p).1 ↔
      e = Effect.runQuery p.1 ∨
      (fmts.contains "csv" = true ∧ e = Effect.writeFile od p.2 "csv") ∨
      (fmts.contains "parquet" = true ∧ w.parquetOk p.2 = true ∧
        e = Effect.writeFile od p.2 "parquet") ∨
      (fmts.contains "parquet" = true ∧ w.parquetOk p.2 = false ∧
        e = Effect.warnParquet p.2) := by
  by_cases hc : fmts.contains "csv" = true <;>
    by_cases hpq : fmts.contains "parquet" = true <;>
      by_cases hpo : w.parquetOk p.2 = true <;>
        simp [exportTableRun, hq, hc, hpq, hpo,
          Bool.not_eq_true, or_comm, or_left_comm, or_assoc]

/-- Membership in the trace of an all-queries-succeed loop. -/
theorem mem_runSeq_all_ok (w : World) (od : String) (fmts : List String)
    (hq : ∀ s, w.queryOutcome s = Except.ok ())
    (l : List (String × String)) (e : Effect) :
    e ∈ (runSeq w od fmts l).1 ↔ ∃ p ∈ l, e ∈ (exportTableRun w od fmts p).1 := by
  rw [runSeq_all_ok w od fmts hq l]
  simp [List.mem_flatMap]

/-- Claim C3: a parquet failure for any table is caught inside
`export_table`: the run finishes with no exception, the table gets a
warning naming it instead of a parquet file, and every requested CSV of
every table is still written. -/
theorem C3_parquet_best_effort (w : World) (cfg : Config) (now : Int) (pth : String)
    (henv : (findAndLoadEnv w.envExists).1 = some pth)
    (hq : ∀ s, w.queryOutcome s = Except.ok ()) :
    (mainRun w cfg now).2 = none ∧
    (∀ bn ∈ tableNames, cfg.formats.contains "csv" = true →
      Effect.writeFile cfg.outDir bn "csv" ∈ (mainRun w cfg now).1) ∧
    (∀ bn ∈ tableNames, cfg.formats.contains "parquet" = true →
      w.parquetOk bn = false →
      Effect.warnParquet bn ∈ (mainRun w cfg now).1 ∧
      Effect.writeFile cfg.outDir bn "parquet" ∉ (mainRun w cfg now).1) := by
  have hrs := runSeq_all_ok w cfg.outDir cfg.formats hq (exportPlan now cfg.sinceDays)
  have hmain1 : (mainRun w cfg now).1 =
      Effect.mkdirOut cfg.outDir :: Effect.loadEnv pth ::
        (runSeq w cfg.outDir cfg.formats (exportPlan now cfg.sinceDays)).1 := by
    simp [mainRun, henv]
  have hmain2 : (mainRun w cfg now).2 =
      (runSeq w cfg.outDir cfg.formats (exportPlan now cfg.sinceDays)).2 := by
    simp [mainRun, henv]
  have hsnd : (exportPlan now cfg.sinceDays).map Prod.snd = tableNames := rfl
  refine ⟨by rw [hmain2, hrs], ?_, ?_⟩
  · intro bn hbn hc
    obtain ⟨p, hpmem, hp2⟩ := List.mem_map.mp (hsnd ▸ hbn)
    rw [hmain1]
    refine List.mem_cons_of_mem _ (List.mem_cons_of_mem _ ?_)
    exact (mem_runSeq_all_ok w cfg.outDir cfg.formats hq _ _).mpr
      ⟨p, hpmem, (mem_exportTableRun w cfg.outDir cfg.formats p _ (hq p.1)).mpr
        (Or.inr (Or.inl ⟨hc, by rw [hp2]⟩))⟩
  · intro bn hbn hpq hpo
    obtain ⟨p, hpmem, hp2⟩ := List.mem_map.mp (hsnd ▸ hbn)
    constructor
    · rw [hmain1]
      refine List.mem_cons_of_mem _ (List.mem_cons_of_mem _ ?_)
      exact (mem_runSeq_all_ok w cfg.outDir cfg.formats hq _ _).mpr
        ⟨p, hpmem, (mem_exportTableRun w cfg.outDir cfg.formats p _ (hq p.1)).mpr
          (Or.inr (Or.inr (Or.inr ⟨hpq, by rw [hp2]; exact hpo, by rw [hp2]⟩)))⟩
    · intro hmem
      rw [hmain1] at hmem
      rcases List.mem_cons.mp hmem with h | hmem2
      · cases h
      rcases List.mem_cons.mp hmem2 with h | hmem3
      · cases h
      obtain ⟨q, hqmem, hin⟩ :=
        (mem_runSeq_all_ok w cfg.outDir cfg.formats hq _ _).mp hmem3
      rcases (mem_exportTableRun w cfg.outDir cfg.formats q _ (hq q.1)).mp hin with
        h | ⟨_, h⟩ | ⟨_, hok, h⟩ | ⟨_, _, h⟩
      · cases h
      · injection h with h1 h2 h3
        exact absurd h3 (by decide)
      · injection h with h1 h2 h3
        rw [← h2] at hok
        rw [hok] at hpo
        cases hpo
      · cases h

/-- The warning and the surviving CSV demonstrated with pyarrow absent. -/
theorem C3_parquet_best_effort_witness :
    Effect.warnParquet "users" ∈ (mainRun noPqWorld defaultCfg 0).1 :=
  ((C3_parquet_best_effort noPqWorld defaultCfg 0 "backend/.env" rfl
    (fun _ => rfl)).2.2 "users" (by simp [tableNames]) rfl rfl).1

/-- The loop ends clean exactly when every query of the list succeeds. -/
theorem runSeq_none_iff (w : World) (od : String) (fmts : List String)
    (l : List (String × String)) :
    (runSeq w od fmts l).2 = none ↔ ∀ p ∈ l, w.queryOutcome p.1 = Except.ok () := by
  induction l with
  | nil => simp [runSeq]
  | cons p rest ih =>
    cases hq : w.queryOutcome p.1 with
    | error e =>
      rw [runSeq_cons_err w od fmts p rest e hq]
      constructor
      · intro h
        cases h
      · intro h
        have := h p (List.mem_cons_self p rest)
        rw [hq] at this
        cases this
    | ok u =>
      cases u
      rw [runSeq_cons_ok w od fmts p rest hq]
      simp [List.forall_mem_cons, hq, ih]

/-- An escaped exception is the verbatim error of one of the queries. -/
theorem runSeq_some_from_query (w : World) (od : String) (fmts : List String)
    (l : List (String × String)) (e : String)
    (h : (runSeq w od fmts l).2 = some e) :
    l.any (fun p => match w.queryOutcome p.1 with
      | Except.error msg => msg == e
      | Except.ok _ => false) = true := by
  induction l with
  | nil => cases h
  | cons p rest ih =>
    cases hq : w.queryOutcome p.1 with
    | error e2 =>
      rw [runSeq_cons_err w od fmts p rest e2 hq] at h
      injection h with h2
      simp [List.any_cons, hq, h2]
    | ok u =>
      cases u
      rw [runSeq_cons_ok w od fmts p rest hq] at h
      simp [List.any_cons, ih h]

/-- One export runs exactly one query, whatever its outcome. -/
theorem countQueries_exportTableRun (w : World) (od : String)
    (fmts : List String) (p : String × String) :
    countQueries (exportTableRun w od fmts p).1 = 1 := by
  by_cases hc : fmts.contains "csv" = true <;>
    by_cases hpq : fmts.contains "parquet" = true <;>
      by_cases hpo : w.parquetOk p.2 = true <;>
        cases hq : w.queryOutcome p.1 <;>
          simp [exportTableRun, countQueries, hq, hc, hpq, hpo]

/-- The trace never holds more query effects than tables: no retry. -/
theorem countQueries_runSeq_le (w : World) (od : String) (fmts : List String)
    (l : List (String × String)) :
    countQueries (runSeq w od fmts l).1 ≤ l.length := by
  induction l with
  | nil => simp [runSeq, countQueries]
  | cons p rest ih =>
    cases hq : w.queryOutcome p.1 with
    | error e =>
      rw [runSeq_cons_err w od fmts p rest e hq]
      simp [countQueries]
    | ok u =>
      cases u
      rw [runSeq_cons_ok w od fmts p rest hq]
      have h1 := countQueries_exportTableRun w od fmts p
      have h2 : countQueries ((exportTableRun w od fmts p).1 ++ (runSeq w od fmts rest).1) =
          countQueries (exportTableRun w od fmts p).1 +
            countQueries (runSeq w od fmts rest).1 := by
        simp [countQueries, List.countP_append]
      rw [h2, h1, List.length_cons]
      omega

/-- Claim C5: a query error in any export is caught nowhere: the loop ends
clean only when every query succeeds, an escaped exception is one raised
by a query, each table's query runs at most once (no retry), and main
passes the loop's exception through untouched. -/
theorem C5_query_errors_uncaught (w : World) (od : String) (fmts : List String)
    (l : List (String × String)) :
    ((runSeq w od fmts l).2 = none ↔ ∀ p ∈ l, w.queryOutcome p.1 = Except.ok ()) ∧
    (∀ e, (runSeq w od fmts l).2 = some e →
      l.any (fun p => match w.queryOutcome p.1 with
        | Except.error msg => msg == e
        | Except.ok _ => false) = true) ∧
    countQueries (runSeq w od fmts l).1 ≤ l.length ∧
    (∀ (cfg : Config) (now : Int) (pth : String),
      (findAndLoadEnv w.envExists).1 = some pth →
      (mainRun w cfg now).2 =
        (runSeq w cfg.outDir cfg.formats (exportPlan now cfg.sinceDays)).2) :=
  ⟨runSeq_none_iff w od fmts l,
   fun e h => runSeq_some_from_query w od fmts l e h,
   countQueries_runSeq_le w od fmts l,
   fun cfg now pth henv => by simp [mainRun, henv]⟩

/-- Claim C7: a fully successful run writes, for the six base names in
export order, exactly one file per requested format, named base.csv or
base.parquet in the output directory, and nothing else. -/
theorem C7_one_file_per_format (w : World) (cfg : Config) (now : Int) (pth : String)
    (henv : (findAndLoadEnv w.envExists).1 = some pth)
    (hq : ∀ s, w.queryOutcome s = Except.ok ())
    (hp : ∀ b, w.parquetOk b = true) :
    (mainRun w cfg now).2 = none ∧
    filesOf (mainRun w cfg now).1 = expectedFiles cfg.outDir cfg.formats := by
  have hrs := runSeq_all_ok w cfg.outDir cfg.formats hq (exportPlan now cfg.sinceDays)
  have hmain1 : (mainRun w cfg now).1 =
      Effect.mkdirOut cfg.outDir :: Effect.loadEnv pth ::
        (runSeq w cfg.outDir cfg.formats (exportPlan now cfg.sinceDays)).1 := by
    simp [mainRun, henv]
  refine ⟨by simp [mainRun, henv, hrs], ?_⟩
  rw [hmain1, hrs]
  by_cases hc : "csv" ∈ cfg.formats <;>
    by_cases hpq : "parquet" ∈ cfg.formats <;>
      simp [exportPlan, filesOf, expectedFiles, tableNames, exportTableRun,
        hq, hp, hc, hpq]

/-- The default run's full file list, demonstrated concretely. -/
theorem C7_one_file_per_format_witness :
    filesOf (mainRun allOkWorld defaultCfg 0).1 =
      expectedFiles "ml/data" ["csv", "parquet"] :=
  (C7_one_file_per_format allOkWorld defaultCfg 0 "backend/.env" rfl
    (fun _ => rfl) (fun _ => rfl)).2

/-- Claim C2 counterexample: the appended filter tests `created_at`, not
the timestamp columns the outputs carry. A completed_courses row whose
`created_at` is 100 but whose `completed_at` is 0 passes the cutoff-50
filter, so the filtered output holds a row whose carried timestamp
(`completed_at` = 0) is below the cutoff. -/
theorem C2_filter_counterexample :
    (runTableQuery completedCols (some 50) [cexRow]).map (fun r => r "completed_at") =
      [some 0] ∧
    (0 : Int) < 50 := by
  constructor
  · rfl
  · decide

/-- Claim C2 as amended: every row surviving the filter has
`created_at` at least the cutoff — the one column the clause constrains
for all four tables — and for search_logs and click_logs, whose SELECT
carries `created_at`, the output rows themselves satisfy the bound. -/
theorem C2_filter_constrains_created_at (c : Int) (rows : List Row) :
    (∀ r ∈ applySinceFilter c rows, ∃ t, r "created_at" = some t ∧ c ≤ t) ∧
    (∀ r ∈ runTableQuery searchCols (some c) rows,
      ∃ t, r "created_at" = some t ∧ c ≤ t) ∧
    (∀ r ∈ runTableQuery clickCols (some c) rows,
      ∃ t, r "created_at" = some t ∧ c ≤ t) := by
  have base : ∀ r ∈ applySinceFilter c rows, ∃ t, r "created_at" = some t ∧ c ≤ t := by
    intro r hr
    have hf := (List.mem_filter.mp hr).2
    unfold sinceFilterHolds at hf
    cases hca : r "created_at" with
    | none => rw [hca] at hf; cases hf
    | some t =>
      rw [hca] at hf
      exact ⟨t, rfl, of_decide_eq_true hf⟩
  refine ⟨base, ?_, ?_⟩ <;> intro r hr
  · obtain ⟨r0, hr0, hproj⟩ := List.mem_map.mp hr
    obtain ⟨t, ht, hle⟩ := base r0 hr0
    refine ⟨t, ?_, hle⟩
    rw [← hproj]
    simpa [projectRow, searchCols] using ht
  · obtain ⟨r0, hr0, hproj⟩ := List.mem_map.mp hr
    obtain ⟨t, ht, hle⟩ := base r0 hr0
    refine ⟨t, ?_, hle⟩
    rw [← hproj]
    simpa [projectRow, clickCols] using ht

/-- A nonempty path is one of its own nonempty prefixes. -/
theorem self_mem_nePrefixes (p : DirPath) (h : p ≠ []) : p ∈ nePrefixes p := by
  induction p with
  | nil => cases h rfl
  | cons c rest ih =>
    cases hr : rest with
    | nil => simp [nePrefixes]
    | cons c2 rest2 =>
      have hrest : c2 :: rest2 ∈ nePrefixes (c2 :: rest2) := by
        have := ih (by simp [hr])
        rwa [hr] at this
      rw [show nePrefixes (c :: c2 :: rest2) =
        [c] :: (nePrefixes (c2 :: rest2)).map (fun q => c :: q) from rfl]
      exact List.mem_cons_of_mem _ (List.mem_map.mpr ⟨c2 :: rest2, hrest, rfl⟩)

/-- When no ancestor is a regular file, mkdir succeeds and adds exactly
the missing prefixes. -/
theorem mkdirParentsExistOk_ok (fs : FS) (p : DirPath)
    (hany : (nePrefixes p).any (fun q => (fs.files.map Prod.fst).contains q) = false) :
    mkdirParentsExistOk fs p = Except.ok { fs with
      dirs := fs.dirs ++ (nePrefixes p).filter (fun q => !(fs.dirs.contains q)) } := by
  unfold mkdirParentsExistOk
  rw [hany]
  simp

/-- Every prefix of the requested path is a directory after mkdir. -/
theorem mem_dirs_after_mkdir (fs : FS) (p : DirPath) (q : DirPath)
    (hq : q ∈ nePrefixes p) :
    q ∈ fs.dirs ++ (nePrefixes p).filter (fun r => !(fs.dirs.contains r)) := by
  by_cases hmem : q ∈ fs.dirs
  · exact List.mem_append_left _ hmem
  · refine List.mem_append_right _ (List.mem_filter.mpr ⟨hq, ?_⟩)
    simp [hmem]

/-- Running mkdir again on a filesystem that already holds every prefix
changes nothing and raises nothing. -/
theorem mkdirParentsExistOk_idem (fs : FS) (p : DirPath)
    (hsub : ∀ q ∈ nePrefixes p, q ∈ fs.dirs)
    (hany : (nePrefixes p).any (fun q => (fs.files.map Prod.fst).contains q) = false) :
    mkdirParentsExistOk fs p = Except.ok fs := by
  rw [mkdirParentsExistOk_ok fs p hany]
  have hfilter : (nePrefixes p).filter (fun q => !(fs.dirs.contains q)) = [] := by
    rw [List.filter_eq_nil_iff]
    intro q hqm
    simp [hsub q hqm]
  rw [hfilter]
  simp

/-- Claim C8: `out_dir.mkdir(parents=True, exist_ok=True)` succeeds whether
or not the directory exists, creates it (ancestors included) when it is
absent, is a no-op when run again, and a file written twice under the same
name is silently replaced by the newer content. -/
theorem C8_mkdir_and_overwrite (fs : FS) (p : DirPath) (c1 c2 : String)
    (hne : p ≠ [])
    (hfiles : ∀ q ∈ nePrefixes p, (fs.files.map Prod.fst).contains q = false) :
    ∃ fs2, mkdirParentsExistOk fs p = Except.ok fs2 ∧
      p ∈ fs2.dirs ∧
      mkdirParentsExistOk fs2 p = Except.ok fs2 ∧
      lookupFile (writeFileFS (writeFileFS fs2 p c1) p c2) p = some c2 := by
  have hany : (nePrefixes p).any (fun q => (fs.files.map Prod.fst).contains q) = false := by
    rw [List.any_eq_false]
    intro q hqm
    simp only [Bool.not_eq_true]
    exact hfiles q hqm
  refine ⟨{ fs with
      dirs := fs.dirs ++ (nePrefixes p).filter (fun q => !(fs.dirs.contains q)) },
    mkdirParentsExistOk_ok fs p hany,
    mem_dirs_after_mkdir fs p p (self_mem_nePrefixes p hne),
    mkdirParentsExistOk_idem _ p (fun q hq => mem_dirs_after_mkdir fs p q hq) hany,
    by simp [writeFileFS, lookupFile]⟩

/-- The mkdir-and-overwrite behaviour demonstrated on the empty disk with
the default output directory. -/
theorem C8_mkdir_and_overwrite_witness :
    ∃ fs2, mkdirParentsExistOk ⟨[], []⟩ ["ml", "data"] = Except.ok fs2 ∧
      ["ml", "data"] ∈ fs2.dirs ∧
      mkdirParentsExistOk fs2 ["ml", "data"] = Except.ok fs2 ∧
      lookupFile (writeFileFS (writeFileFS fs2 ["ml", "data"] "a") ["ml", "data"] "b")
        ["ml", "data"] = some "b" :=
  C8_mkdir_and_overwrite ⟨[], []⟩ ["ml", "data"] "a" "b" (by decide)
    (fun q _ => rfl)

end ExportLogs
